import Mathlib

/-!
Verification of `mapping/mapping_utils.py` (functions `pp_adatas` and
`map_cells_to_space`) against its design specification.

Shallow embedding conventions:
* numpy float values stored in matrices are modeled by exact numbers; IEEE
  rounding is abstracted (see `float32`).  The carrier is `ℤ` so that every
  structural definition stays kernel-evaluable; no claim depends on
  fractional entries.  The diagnostic cosine-similarity arithmetic, which
  divides and takes square roots, is modeled over `ℝ`.  A float division
  whose denominator is zero is not a real number in numpy (it yields
  `nan`/`inf`), so such results are modeled by `Option`: `none` stands for
  the undefined (NaN) outcome.
* `AnnData` objects are records holding the gene axis (`var`, the var index),
  the observation axis (`obs`) and the expression matrix `X`.
* The possible runtime representations of `X` are a tagged variant
  (`XMatrix`): dense `numpy.ndarray`, `scipy` CSR, `scipy` CSC, or an
  unrecognized representation (`other`).
* Python exceptions are modeled by `Except Err`.  The two bare
  `raise NotImplementedError` sites of `map_cells_to_space` are distinguished
  by their site (the spec names them `UnsupportedMatrixType` and
  `UnsupportedModeError`); the two `assert` statements of `pp_adatas` raise
  what the spec calls `GeneAlignmentError`; calling the missing method
  `toarray` on a dense `numpy.ndarray` raises `AttributeError`.
* The module `mapping.mapping_optimizer` (class `Mapper`) is not part of the
  sources under verification; `map_cells_to_space` is therefore parameterized
  by the `train` function it provides.  None of the properties proved here
  depend on the values it returns.
-/

deriving instance DecidableEq for Except

namespace Tangram

/-- Error outcomes of the two functions, named as in the spec taxonomy.
`unsupportedMatrixType` and `unsupportedModeError` are the two distinct
`raise NotImplementedError` sites of `map_cells_to_space`; `geneAlignmentError`
is an `AssertionError` from one of the two `assert`s of `pp_adatas`;
`attributeError` models calling `.toarray()` on an object without that method;
`keyError` models a failing label lookup inside pandas indexing. -/
inductive Err
  | unsupportedMatrixType
  | unsupportedModeError
  | geneAlignmentError
  | attributeError
  | keyError
deriving DecidableEq, Repr

/-- Dense `numpy.ndarray` with explicit shape (numpy arrays carry their
shape), entries stored row major. -/
structure DenseM where
  rows : ℕ
  cols : ℕ
  entries : List (List ℤ)
deriving DecidableEq, Repr

/-- Entry access `m[i, j]`, total with default 0 outside the stored lists. -/
def DenseM.get (m : DenseM) (i j : ℕ) : ℤ :=
  (m.entries.getD i []).getD j 0

/-- Transpose `m.T`. -/
def DenseM.transpose (m : DenseM) : DenseM :=
  ⟨m.cols, m.rows,
    (List.range m.cols).map fun j => (List.range m.rows).map fun i => m.get i j⟩

/-- Matrix product `a @ b` (contraction over the column axis of `a`). -/
def DenseM.mul (a b : DenseM) : DenseM :=
  ⟨a.rows, b.cols,
    (List.range a.rows).map fun i =>
      (List.range b.cols).map fun j =>
        ((List.range a.cols).map fun k => a.get i k * b.get k j).sum⟩

/-- Pointwise map over all entries (dtype casts). -/
def DenseM.map (m : DenseM) (f : ℤ → ℤ) : DenseM :=
  ⟨m.rows, m.cols, m.entries.map (List.map f)⟩

/-- Column subset: keep the columns listed in `keep`, in that order. -/
def DenseM.colSubset (m : DenseM) (keep : List ℕ) : DenseM :=
  ⟨m.rows, keep.length, m.entries.map fun row => keep.map fun j => row.getD j 0⟩

/-- The cast `numpy` performs for `dtype='float32'`.  IEEE rounding is
abstracted: the idealized carrier represents the stored floats exactly, so
the cast is the identity. -/
def float32 (q : ℤ) : ℤ := q

/-- A `scipy.sparse.csr_matrix`: row pointers `indptr`, column indices
`indices`, values `data`. -/
structure CSR where
  rows : ℕ
  cols : ℕ
  indptr : List ℕ
  indices : List ℕ
  data : List ℤ
deriving DecidableEq, Repr

/-- The `(column, value)` pairs stored for row `i`. -/
def CSR.rowEntries (m : CSR) (i : ℕ) : List (ℕ × ℤ) :=
  ((m.indices.zip m.data).drop (m.indptr.getD i 0)).take
    (m.indptr.getD (i + 1) 0 - m.indptr.getD i 0)

/-- Densification `m.toarray()`; duplicate entries are summed, as in scipy. -/
def CSR.toarray (m : CSR) : DenseM :=
  ⟨m.rows, m.cols,
    (List.range m.rows).map fun i =>
      (List.range m.cols).map fun j =>
        ((m.rowEntries i).filterMap fun p =>
          if p.1 = j then some p.2 else none).sum⟩

/-- Column subset of a CSR matrix: keep columns in `keep` (in that order),
re-indexing the kept column indices to their position in `keep`. -/
def CSR.colSubset (m : CSR) (keep : List ℕ) : CSR :=
  let newRows := (List.range m.rows).map fun i =>
    (m.rowEntries i).filterMap fun p =>
      if p.1 ∈ keep then some (keep.indexOf p.1, p.2) else none
  ⟨m.rows, keep.length,
    (List.range (m.rows + 1)).map fun i => ((newRows.take i).map List.length).sum,
    newRows.flatten.map Prod.fst,
    newRows.flatten.map Prod.snd⟩

/-- A `scipy.sparse.csc_matrix`: column pointers `indptr`, row indices
`indices`, values `data`. -/
structure CSC where
  rows : ℕ
  cols : ℕ
  indptr : List ℕ
  indices : List ℕ
  data : List ℤ
deriving DecidableEq, Repr

/-- The `(row, value)` pairs stored for column `j`. -/
def CSC.colEntries (m : CSC) (j : ℕ) : List (ℕ × ℤ) :=
  ((m.indices.zip m.data).drop (m.indptr.getD j 0)).take
    (m.indptr.getD (j + 1) 0 - m.indptr.getD j 0)

/-- Densification `m.toarray()`; duplicate entries are summed, as in scipy. -/
def CSC.toarray (m : CSC) : DenseM :=
  ⟨m.rows, m.cols,
    (List.range m.rows).map fun i =>
      (List.range m.cols).map fun j =>
        ((m.colEntries j).filterMap fun p =>
          if p.1 = i then some p.2 else none).sum⟩

/-- Column subset of a CSC matrix: keep the column segments listed in `keep`,
in that order. -/
def CSC.colSubset (m : CSC) (keep : List ℕ) : CSC :=
  let cols := keep.map fun j => m.colEntries j
  ⟨m.rows, keep.length,
    (List.range (keep.length + 1)).map fun i => ((cols.take i).map List.length).sum,
    cols.flatten.map Prod.fst,
    cols.flatten.map Prod.snd⟩

/-- Runtime representation of an `AnnData.X` expression matrix: the three
kinds recognized by `map_cells_to_space` plus `other` for any unrecognized
representation (e.g. a list of lists). -/
inductive XMatrix
  | dense (m : DenseM)
  | csr (m : CSR)
  | csc (m : CSC)
  | other
deriving DecidableEq, Repr

/-- The Python test `isinstance(X, np.ndarray)`. -/
def XMatrix.isNdarray : XMatrix → Bool
  | .dense _ => true
  | _ => false

/-- Row count reported by the representation (`X.shape[0]`); 0 for an
unrecognized representation, which is never consulted. -/
def XMatrix.nRows : XMatrix → ℕ
  | .dense m => m.rows
  | .csr m => m.rows
  | .csc m => m.rows
  | .other => 0

/-- Column count reported by the representation (`X.shape[1]`). -/
def XMatrix.nCols : XMatrix → ℕ
  | .dense m => m.cols
  | .csr m => m.cols
  | .csc m => m.cols
  | .other => 0

/-- The Python call `X.toarray()`.  Sparse matrices provide the method; a
dense `numpy.ndarray` does not, so the call raises `AttributeError`.  An
unrecognized object is modeled as not providing the method either. -/
def XMatrix.toarrayM : XMatrix → Except Err DenseM
  | .dense _ => .error .attributeError
  | .csr m => .ok m.toarray
  | .csc m => .ok m.toarray
  | .other => .error .attributeError

/-- Column subset of whichever representation is stored (AnnData column
slicing keeps the storage kind). -/
def XMatrix.colSubset : XMatrix → List ℕ → XMatrix
  | .dense m, keep => .dense (m.colSubset keep)
  | .csr m, keep => .csr (m.colSubset keep)
  | .csc m, keep => .csc (m.colSubset keep)
  | .other, _ => .other

/-- An `AnnData`: gene names (`var` index), observation names (`obs` index)
and the expression matrix `X` (obs × var). -/
structure AnnData where
  var : List String
  obs : List String
  X : XMatrix
deriving DecidableEq, Repr

/-! ### pp_adatas -/

/-- The candidate gene list: the `genes` argument, defaulting to all genes of
`adata_1` when `None` (`genes = adata_1.var.index.values`). -/
def candGenes (a1 : AnnData) (g : Option (List String)) : List String :=
  g.getD a1.var

/-- The shared gene list computed by `pp_adatas`:
`genes = adata_1.var[adata_1.var.index.isin(genes)].index.values` followed by
`genes = adata_2.var[adata_2.var.index.isin(genes)].index.values`. -/
def sharedGenes (a1 a2 : AnnData) (g : Option (List String)) : List String :=
  a2.var.filter fun s => decide (s ∈ (a1.var.filter fun t => decide (t ∈ candGenes a1 g)))

/-- Positions of the `var` entries whose name is in `genes`
(the boolean mask `adata.var.index.isin(genes)`). -/
def keepIdx (var genes : List String) : List ℕ :=
  (List.range var.length).filter fun i => decide (var.getD i "" ∈ genes)

/-- The subsetting `adata[:, adata.var.index.isin(genes)]`: keep the columns
whose gene name is in `genes`. -/
def colSubsetNames (a : AnnData) (genes : List String) : AnnData :=
  { var := a.var.filter fun s => decide (s ∈ genes),
    obs := a.obs,
    X := a.X.colSubset (keepIdx a.var genes) }

/-- The two subsetted AnnDatas right before the first `assert` of
`pp_adatas`. -/
def subsetted (a1 a2 : AnnData) (g : Option (List String)) : AnnData × AnnData :=
  (colSubsetNames a1 (sharedGenes a1 a2 g), colSubsetNames a2 (sharedGenes a1 a2 g))

/-- The label indexing `adata_2[:, adata_1.var.index.values]`: select columns
by gene name, in the order of `names`.  pandas label lookup requires each
requested label to be uniquely present, otherwise it raises (modeled as
`keyError`). -/
def selectByNames (a : AnnData) (names : List String) : Except Err AnnData :=
  if names.all fun n => decide (a.var.count n = 1) then
    .ok { var := names, obs := a.obs,
          X := a.X.colSubset (names.map fun n => a.var.indexOf n) }
  else .error .keyError

/-- The Python condition `~b` for a bool `b` used as an `if` condition:
`~True == -2` and `~False == -1`, and an `if` treats any nonzero int as true.
Hence the condition is truthy for both values of `b`. -/
def pyInvTruthy (b : Bool) : Bool :=
  decide ((if b then (-2 : Int) else (-1 : Int)) ≠ 0)

/-- The densification loop body of `pp_adatas`:
`if ~isinstance(adata.X, np.ndarray): adata.X = adata.X.toarray()`.
Because `~` is bitwise complement, the branch is taken for every
representation, so `toarray` is called even on a dense `numpy.ndarray`. -/
def densify (x : XMatrix) : Except Err XMatrix :=
  if pyInvTruthy x.isNdarray then x.toarrayM.map XMatrix.dense else .ok x

/-- The function `pp_adatas(adata_1, adata_2, genes=None)`: compute the
shared gene list, subset both AnnDatas to it, assert equal gene counts,
reorder `adata_2` to the gene order of `adata_1`, assert equal gene indices,
then densify both `X` matrices. -/
def ppAdatas (a1 a2 : AnnData) (g : Option (List String)) :
    Except Err (AnnData × AnnData) :=
  if (subsetted a1 a2 g).1.var.length = (subsetted a1 a2 g).2.var.length then
    match selectByNames (subsetted a1 a2 g).2 (subsetted a1 a2 g).1.var with
    | .error e => .error e
    | .ok a2r =>
      if a2r.var = (subsetted a1 a2 g).1.var then
        match densify (subsetted a1 a2 g).1.X with
        | .error e => .error e
        | .ok x1 =>
          match densify a2r.X with
          | .error e => .error e
          | .ok x2 => .ok ({ (subsetted a1 a2 g).1 with X := x1 }, { a2r with X := x2 })
      else .error .geneAlignmentError
  else .error .geneAlignmentError

/-! ### map_cells_to_space: ingestion -/

/-- A representation is recognized when it is one of the three kinds tested
by the `isinstance` chain. -/
def recognizedX (x : XMatrix) : Prop := x ≠ XMatrix.other

instance : DecidablePred recognizedX := fun x =>
  inferInstanceAs (Decidable (x ≠ XMatrix.other))

/-- The ingestion chain of `map_cells_to_space` for one expression matrix:
sparse kinds are densified through `toarray` and cast with
`np.array(..., dtype='float32')`, a dense array is cast the same way, and any
other representation raises (the site the spec calls
`UnsupportedMatrixType`). -/
def ingest : XMatrix → Except Err DenseM
  | .csr m => .ok (m.toarray.map float32)
  | .csc m => .ok (m.toarray.map float32)
  | .dense m => .ok (m.map float32)
  | .other => .error .unsupportedMatrixType

/-! ### map_cells_to_space: orchestration -/

/-- The hyperparameter set handed to the Mapper. -/
structure Hyper where
  lambda_d : ℤ
  lambda_g1 : ℤ
  lambda_g2 : ℤ
  lambda_r : ℤ
deriving DecidableEq, Repr

/-- The hyperparameters of the only supported mode, `'simple'`: all weight on
the gene-voxel cosine similarity term. -/
def simpleHyper : Hyper := ⟨0, 1, 0, 0⟩

/-- Completed allocation / control-flow events of `map_cells_to_space`, in
source order: densify-and-copy `S` from `adata_cells.X`, densify-and-copy `G`
from `adata_space.X`, allocate `d = np.zeros(adata_space.n_obs)`, construct
the torch device, construct the Mapper, start training. -/
inductive Ev
  | ingestCells
  | ingestSpace
  | densityAlloc
  | deviceAlloc
  | mapperInit
  | trainStart
deriving DecidableEq, Repr

/-- Control-flow instrumentation of `map_cells_to_space`: the list of
completed allocation events together with the raised error, if any.  The mode
check (`if mode == 'simple' ... else raise NotImplementedError`) happens only
after both expression matrices are densified, the density vector is
allocated, and the device is constructed. -/
def mapCellsToSpaceEvents (ac as : AnnData) (mode : String) :
    List Ev × Option Err :=
  match ingest ac.X with
  | .error e => ([], some e)
  | .ok _ =>
    match ingest as.X with
    | .error e => ([.ingestCells], some e)
    | .ok _ =>
      if mode = "simple" then
        ([.ingestCells, .ingestSpace, .densityAlloc, .deviceAlloc,
          .mapperInit, .trainStart], none)
      else
        ([.ingestCells, .ingestSpace, .densityAlloc, .deviceAlloc],
          some .unsupportedModeError)

/-! ### map_cells_to_space: per-gene diagnostic scoring -/

/-- The dot product `v1 @ v2` of two numpy float vectors (zip truncates to
the common length, as the loop only pairs existing coordinates). -/
noncomputable def dot (v1 v2 : List ℝ) : ℝ :=
  ((v1.zip v2).map fun p => p.1 * p.2).sum

/-- Sum of squares of a vector; `np.linalg.norm v = sqrt (sumSq v)`. -/
noncomputable def sumSq (v : List ℝ) : ℝ :=
  (v.map fun x => x * x).sum

/-- The per-gene score `(v1 @ v2) / (np.linalg.norm(v1) * np.linalg.norm(v2))`.
When the denominator is zero the numpy float division yields `nan` (or
`inf`), which is not a real number: modeled as `none`. -/
noncomputable def cos_sim (v1 v2 : List ℝ) : Option ℝ :=
  if Real.sqrt (sumSq v1) * Real.sqrt (sumSq v2) = 0 then none
  else some (dot v1 v2 / (Real.sqrt (sumSq v1) * Real.sqrt (sumSq v2)))

/-- Embedding boundary: the float entries of a stored matrix column, viewed
as real numbers. -/
noncomputable def castVec (v : List ℤ) : List ℝ :=
  v.map fun z => (z : ℝ)

/-- Ordering used by `df_cs.sort_values(by='score', ascending=False)`:
descending on defined scores, with undefined (NaN) scores placed last
(pandas default `na_position='last'`). -/
def scoreGE : (String × Option ℝ) → (String × Option ℝ) → Prop
  | (_, some x), (_, some y) => y ≤ x
  | (_, some _), (_, none) => True
  | (_, none), (_, some _) => False
  | (_, none), (_, none) => True

noncomputable instance : DecidableRel scoreGE := fun a b =>
  match a, b with
  | (_, some x), (_, some y) => inferInstanceAs (Decidable (y ≤ x))
  | (_, some _), (_, none) => .isTrue trivial
  | (_, none), (_, some _) => .isFalse fun h => h
  | (_, none), (_, none) => .isTrue trivial

instance : IsTotal (String × Option ℝ) scoreGE where
  total a b :=
    match a, b with
    | (_, some x), (_, some y) => (le_total y x).imp id id
    | (_, some _), (_, none) => .inl trivial
    | (_, none), (_, some _) => .inr trivial
    | (_, none), (_, none) => .inl trivial

instance : IsTrans (String × Option ℝ) scoreGE where
  trans a b c :=
    match a, b, c with
    | (_, some _), (_, some _), (_, some _) => fun h1 h2 => le_trans h2 h1
    | (_, some _), (_, some _), (_, none) => fun _ _ => trivial
    | (_, some _), (_, none), (_, some _) => fun _ h2 => h2.elim
    | (_, some _), (_, none), (_, none) => fun _ _ => trivial
    | (_, none), (_, some _), _ => fun h1 _ => h1.elim
    | (_, none), (_, none), (_, some _) => fun _ h2 => h2.elim
    | (_, none), (_, none), (_, none) => fun _ _ => trivial

/-- The unsorted per-gene score pairs: `G_predicted = adata_map.X.T @ S`,
then one cosine similarity per gene column of `zip(G.T, G_predicted.T)`,
paired with the training gene names
(`pd.DataFrame(cos_sims, training_genes, columns=['score'])`). -/
noncomputable def rawGeneScores (M S G : DenseM) (genes : List String) :
    List (String × Option ℝ) :=
  let Gpred := M.transpose.mul S
  genes.zip ((G.transpose.entries.zip Gpred.transpose.entries).map fun p =>
    cos_sim (castVec p.1) (castVec p.2))

/-- The ranked score table `df_cs.sort_values(by='score', ascending=False)`.
The sorting algorithm pandas uses is irrelevant to the contract; the
embedding sorts with `List.insertionSort`. -/
noncomputable def trainGenesScores (M S G : DenseM) (genes : List String) :
    List (String × Option ℝ) :=
  List.insertionSort scoreGE (rawGeneScores M S G genes)

/-- The result container: the mapping matrix (cell × spot), its row names
(`adata_cells.obs`), its column names (`adata_space.obs`), and the ranked
per-gene score table stored in `uns['train_genes_scores']`. -/
structure MapResult where
  X : DenseM
  obs : List String
  var : List String
  trainGenesScores : List (String × Option ℝ)

/-- The function `map_cells_to_space(adata_cells, adata_space, mode, ...)`.
The external module `mapping.mapping_optimizer` is not among the sources, so
the Mapper construction plus `mapper.train(...)` is a parameter `train`
taking `S`, `G`, `d` and the hyperparameters (learning rate, epoch count,
device and the optional resumed mapping are absorbed into the closure).  The
final two components of the result are the states of the two input AnnDatas
when the call returns: the source assigns only to local names, never to a
field of its inputs, and `np.array(..., dtype='float32')` copies its
argument. -/
noncomputable def mapCellsToSpace
    (train : DenseM → DenseM → List ℤ → Hyper → DenseM)
    (ac as : AnnData) (mode : String) :
    Except Err MapResult × AnnData × AnnData :=
  match ingest ac.X with
  | .error e => (.error e, ac, as)
  | .ok S =>
    match ingest as.X with
    | .error e => (.error e, ac, as)
    | .ok G =>
      let d := List.replicate as.obs.length (0 : ℤ)
      if mode = "simple" then
        let M := train S G d simpleHyper
        (.ok ⟨M, ac.obs, as.obs, trainGenesScores M S G ac.var⟩, ac, as)
      else
        (.error .unsupportedModeError, ac, as)

/-! ### Concrete fixtures used by witnesses and counterexamples -/

/-- A 1 × 1 dense matrix. -/
def denseA : DenseM := ⟨1, 1, [[1]]⟩

/-- An AnnData whose `X` is an already-dense `numpy.ndarray`. -/
def adDense : AnnData := ⟨["g0"], ["c0"], .dense denseA⟩

/-- A 1 × 1 CSR matrix holding the single value 1. -/
def csrA : CSR := ⟨1, 1, [0, 1], [0], [1]⟩

/-- An AnnData whose `X` is sparse CSR. -/
def adCSR : AnnData := ⟨["g0"], ["c0"], .csr csrA⟩

/-- An AnnData with a duplicated gene name. -/
def adDup : AnnData := ⟨["a", "a"], ["c0"], .dense ⟨1, 2, [[1, 2]]⟩⟩

/-- An AnnData sharing only gene `a`, without duplication. -/
def adSingle : AnnData := ⟨["a"], ["c0"], .dense denseA⟩

/-- The value `pp_adatas` returns on the `adCSR` pair: both AnnDatas keep
their single shared gene and their `X` is densified. -/
def ppResExpected : AnnData × AnnData :=
  (⟨["g0"], ["c0"], .dense denseA⟩, ⟨["g0"], ["c0"], .dense denseA⟩)

/-! ## Helper lemmas -/

/-- Pointwise `float32` casting is the identity on the idealized carrier. -/
theorem map_float32_eq (l : List ℤ) : l.map float32 = l := by
  induction l with
  | nil => rfl
  | cons x xs ih => simp [float32, ih]

/-- The `dtype='float32'` cast of a dense matrix returns an equal matrix. -/
theorem denseM_map_float32_eq (m : DenseM) : m.map float32 = m := by
  obtain ⟨r, c, e⟩ := m
  simp only [DenseM.map, DenseM.mk.injEq, true_and]
  induction e with
  | nil => rfl
  | cons row rest ih => simp [map_float32_eq, ih]

/-- Ingestion succeeds on every recognized representation and yields a dense
array of the same shape. -/
theorem ingest_ok_of_recognized {x : XMatrix} (h : recognizedX x) :
    ∃ D, ingest x = .ok D ∧ D.rows = x.nRows ∧ D.cols = x.nCols := by
  cases x with
  | dense m => exact ⟨m.map float32, rfl, rfl, rfl⟩
  | csr m => exact ⟨m.toarray.map float32, rfl, rfl, rfl⟩
  | csc m => exact ⟨m.toarray.map float32, rfl, rfl, rfl⟩
  | other => exact absurd rfl h

/-- Membership in the shared gene list of `pp_adatas`. -/
theorem mem_sharedGenes {a1 a2 : AnnData} {g : Option (List String)} {x : String} :
    x ∈ sharedGenes a1 a2 g ↔ x ∈ a2.var ∧ x ∈ a1.var ∧ x ∈ candGenes a1 g := by
  simp [sharedGenes, List.mem_filter]

/-! ## Claims -/

/-- C4: ingestion in `map_cells_to_space` fails with the
`UnsupportedMatrixType` error (the `raise NotImplementedError` after the
`isinstance` chain) on every representation that is none of the recognized
kinds, and on every recognized kind (dense, CSR, CSC) it returns a dense
float32 array of identical shape. -/
theorem ingest_contract (x : XMatrix) :
    (¬ recognizedX x → ingest x = .error .unsupportedMatrixType) ∧
    (recognizedX x → ∃ D, ingest x = .ok D ∧ D.rows = x.nRows ∧ D.cols = x.nCols) := by
  constructor
  · intro h
    cases x with
    | other => rfl
    | dense m => exact absurd (fun hc => XMatrix.noConfusion hc) h
    | csr m => exact absurd (fun hc => XMatrix.noConfusion hc) h
    | csc m => exact absurd (fun hc => XMatrix.noConfusion hc) h
  · exact ingest_ok_of_recognized

/-- Witness for C4: the unrecognized representation is rejected, and a
concrete CSR matrix is ingested into a dense array of its shape. -/
theorem ingest_contract_witness :
    ingest XMatrix.other = .error .unsupportedMatrixType ∧
    ∃ D, ingest (.csr csrA) = .ok D ∧ D.rows = (XMatrix.csr csrA).nRows ∧
      D.cols = (XMatrix.csr csrA).nCols :=
  ⟨(ingest_contract XMatrix.other).1 (by simp [recognizedX]),
   (ingest_contract (.csr csrA)).2 (by simp [recognizedX])⟩

/-- C8: ingesting an already-dense matrix yields a value equal element-wise
to the input (idempotence of the Matrix Ingestion Adapter), hence of
identical shape and values. -/
theorem ingest_dense_idempotent (m : DenseM) : ingest (.dense m) = .ok m := by
  show Except.ok (m.map float32) = Except.ok m
  rw [denseM_map_float32_eq]

/-- C9: `map_cells_to_space` never mutates its input AnnDatas: the ingestion
step builds `S` and `G` as fresh copies (`np.array(..., dtype='float32')`)
and the function assigns only to local names, so the final states of the two
inputs equal their initial states on every path, error paths included. -/
theorem mapCellsToSpace_inputs_unchanged
    (train : DenseM → DenseM → List ℤ → Hyper → DenseM)
    (ac as : AnnData) (mode : String) :
    (mapCellsToSpace train ac as mode).2 = (ac, as) := by
  unfold mapCellsToSpace
  rcases ingest ac.X with e | S
  · rfl
  · rcases ingest as.X with e | G
    · rfl
    · by_cases hm : mode = "simple" <;> simp [hm]

/-- C10: with `genes=None` the candidate list defaults to all genes of the
first dataset, so the shared gene set is exactly the intersection of the two
datasets' gene sets. -/
theorem sharedGenes_default_intersection (a1 a2 : AnnData) :
    candGenes a1 none = a1.var ∧
    ∀ x, x ∈ sharedGenes a1 a2 none ↔ x ∈ a1.var ∧ x ∈ a2.var := by
  refine ⟨rfl, fun x => ?_⟩
  rw [mem_sharedGenes]
  constructor
  · rintro ⟨h2, h1, -⟩
    exact ⟨h1, h2⟩
  · rintro ⟨h1, h2⟩
    exact ⟨h2, h1, h1⟩

/-- C1 (code bug): on an already-dense input, `pp_adatas` crashes with
`AttributeError` instead of passing the matrix through.  The densification
guard is written `if ~isinstance(adata.X, np.ndarray)`, and `~` on a Python
bool is the bitwise complement (`~True == -2`, `~False == -1`), both truthy,
so `.toarray()` is called even on a `numpy.ndarray`, which has no such
method.  The docstring promises that the function merely ensures `X` is an
`ndarray`; the intended guard is `not isinstance`. -/
theorem ppAdatas_dense_raises_attributeError :
    ppAdatas adDense adDense none = .error .attributeError := by decide

/-- C5: the defensive validation of `pp_adatas`.  If after subsetting the two
gene axes differ in length, the first `assert` fails (the error the spec
names `GeneAlignmentError`); and no successful return can carry axes that
differ in length or order, since the second `assert` compares the full
indices. -/
theorem ppAdatas_gene_alignment_guard (a1 a2 : AnnData) (g : Option (List String)) :
    ((subsetted a1 a2 g).1.var.length ≠ (subsetted a1 a2 g).2.var.length →
      ppAdatas a1 a2 g = .error .geneAlignmentError) ∧
    (∀ r, ppAdatas a1 a2 g = .ok r → r.1.var = r.2.var) := by
  constructor
  · intro h
    unfold ppAdatas
    rw [if_neg h]
  · intro r h
    unfold ppAdatas at h
    split at h
    · split at h
      · exact absurd h (by simp)
      · rename_i a2r heq
        split at h
        · rename_i hv
          split at h
          · exact absurd h (by simp)
          · split at h
            · exact absurd h (by simp)
            · injection h with h
              rw [← h]
              exact hv.symm
        · exact absurd h (by simp)
    · exact absurd h (by simp)

/-- Witness for C5: two datasets whose duplicated gene name makes the
subsetted axes differ in length (2 vs 1), so `pp_adatas` fails with the
gene-alignment assertion. -/
theorem ppAdatas_gene_alignment_guard_witness :
    (subsetted adDup adSingle none).1.var.length ≠
      (subsetted adDup adSingle none).2.var.length ∧
    ppAdatas adDup adSingle none = .error .geneAlignmentError :=
  ⟨by decide, (ppAdatas_gene_alignment_guard adDup adSingle none).1 (by decide)⟩

/-- C6: whenever `pp_adatas` returns, the two returned AnnDatas have
identical gene axes (same length and same order); the axis is dataset 1's
gene list restricted to the shared genes (hence in dataset 1's order), and
its members are exactly the genes lying in the candidate list and in both
datasets. -/
theorem ppAdatas_ok_gene_axes (a1 a2 : AnnData) (g : Option (List String))
    (r : AnnData × AnnData) (h : ppAdatas a1 a2 g = .ok r) :
    r.1.var = r.2.var ∧
    r.1.var = a1.var.filter (fun s => decide (s ∈ sharedGenes a1 a2 g)) ∧
    ∀ x, x ∈ r.1.var ↔ x ∈ candGenes a1 g ∧ x ∈ a1.var ∧ x ∈ a2.var := by
  have hvar : r.1.var = (subsetted a1 a2 g).1.var ∧ r.1.var = r.2.var := by
    unfold ppAdatas at h
    split at h
    · split at h
      · exact absurd h (by simp)
      · rename_i a2r heq
        split at h
        · rename_i hv
          split at h
          · exact absurd h (by simp)
          · split at h
            · exact absurd h (by simp)
            · injection h with h
              rw [← h]
              exact ⟨rfl, hv.symm⟩
        · exact absurd h (by simp)
    · exact absurd h (by simp)
  obtain ⟨h1, h12⟩ := hvar
  refine ⟨h12, h1, fun x => ?_⟩
  rw [h1]
  show x ∈ (colSubsetNames a1 (sharedGenes a1 a2 g)).var ↔ _
  simp only [colSubsetNames, List.mem_filter, decide_eq_true_eq, mem_sharedGenes]
  tauto

/-- Witness for C6: a successful run on two sparse single-gene AnnDatas,
whose returned gene axes coincide. -/
theorem ppAdatas_ok_gene_axes_witness :
    ppAdatas adCSR adCSR none = .ok ppResExpected ∧
    ppResExpected.1.var = ppResExpected.2.var := by
  have h : ppAdatas adCSR adCSR none = .ok ppResExpected := by decide
  exact ⟨h, (ppAdatas_ok_gene_axes adCSR adCSR none ppResExpected h).1⟩

/-- Counterexample to C3 as stated: with a non-`'simple'` mode the call does
fail with the unsupported-mode error, but only after both expression
matrices have been densified and copied and the density vector allocated —
the `ingestCells` allocation event is already in the trace when the error is
raised, so the rejection does not happen before tensor allocation. -/
theorem mapCells_mode_error_after_allocation :
    (mapCellsToSpaceEvents adDense adDense "other").2 = some .unsupportedModeError ∧
    Ev.ingestCells ∈ (mapCellsToSpaceEvents adDense adDense "other").1 := by
  decide

/-- C3 (amended): for every mode other than `'simple'` (with recognized
input matrices), the call fails with `UnsupportedModeError` after the
expression matrices are densified but before the Mapper is constructed and
before training starts, and the error is surfaced to the caller. -/
theorem badMode_rejected_before_training (ac as : AnnData) (mode : String)
    (hm : mode ≠ "simple") (h1 : recognizedX ac.X) (h2 : recognizedX as.X) :
    mapCellsToSpaceEvents ac as mode =
      ([.ingestCells, .ingestSpace, .densityAlloc, .deviceAlloc],
        some .unsupportedModeError) ∧
    Ev.mapperInit ∉ (mapCellsToSpaceEvents ac as mode).1 ∧
    Ev.trainStart ∉ (mapCellsToSpaceEvents ac as mode).1 ∧
    ∀ train, (mapCellsToSpace train ac as mode).1 = .error .unsupportedModeError := by
  obtain ⟨S, hS, -, -⟩ := ingest_ok_of_recognized h1
  obtain ⟨G, hG, -, -⟩ := ingest_ok_of_recognized h2
  have hev : mapCellsToSpaceEvents ac as mode =
      ([.ingestCells, .ingestSpace, .densityAlloc, .deviceAlloc],
        some .unsupportedModeError) := by
    simp only [mapCellsToSpaceEvents, hS, hG]
    rw [if_neg hm]
  refine ⟨hev, ?_, ?_, fun train => ?_⟩
  · rw [hev]; decide
  · rw [hev]; decide
  · simp only [mapCellsToSpace, hS, hG]
    rw [if_neg hm]

/-- Witness for C3 (amended): a concrete unsupported mode on dense inputs is
surfaced as the unsupported-mode error. -/
theorem badMode_rejected_witness :
    (mapCellsToSpace (fun _ _ _ _ => denseA) adDense adDense "other").1 =
      .error .unsupportedModeError :=
  (badMode_rejected_before_training adDense adDense "other" (by decide) (by decide)
    (by decide)).2.2.2 (fun _ _ _ _ => denseA)

/-- The dot product of a nil vector is 0. -/
theorem dot_nil (v : List ℝ) : dot [] v = 0 := rfl

/-- The dot product with a nil vector is 0 (zip truncates). -/
theorem dot_nil_right (v : List ℝ) : dot v [] = 0 := by cases v <;> rfl

/-- Unfolding of the dot product on cons cells. -/
theorem dot_cons (x y : ℝ) (xs ys : List ℝ) :
    dot (x :: xs) (y :: ys) = x * y + dot xs ys := by
  simp [dot]

/-- The sum of squares of the nil vector. -/
theorem sumSq_nil : sumSq [] = 0 := rfl

/-- Unfolding of the sum of squares on a cons cell. -/
theorem sumSq_cons (x : ℝ) (xs : List ℝ) : sumSq (x :: xs) = x * x + sumSq xs := by
  simp [sumSq]

/-- A sum of squares is non-negative. -/
theorem sumSq_nonneg (v : List ℝ) : 0 ≤ sumSq v := by
  induction v with
  | nil => simp [sumSq_nil]
  | cons x xs ih =>
    rw [sumSq_cons]
    exact add_nonneg (mul_self_nonneg x) ih

/-- Cauchy–Schwarz for the list dot product. -/
theorem dot_sq_le_sumSq_mul (v1 v2 : List ℝ) :
    dot v1 v2 ^ 2 ≤ sumSq v1 * sumSq v2 := by
  induction v1 generalizing v2 with
  | nil => simp [dot_nil, sumSq_nil]
  | cons x xs ih =>
    cases v2 with
    | nil => simp [dot_nil_right, sumSq_nil]
    | cons y ys =>
      have h := ih ys
      have hA := sumSq_nonneg xs
      have hB := sumSq_nonneg ys
      rw [dot_cons, sumSq_cons, sumSq_cons]
      rcases eq_or_lt_of_le hB with hB0 | hBpos
      · have hsq : dot xs ys ^ 2 = 0 := by
          refine le_antisymm ?_ (sq_nonneg _)
          calc dot xs ys ^ 2 ≤ sumSq xs * sumSq ys := h
            _ = 0 := by rw [← hB0, mul_zero]
        have hD : dot xs ys = 0 := pow_eq_zero_iff two_ne_zero |>.mp hsq
        rw [hD, ← hB0]
        nlinarith [mul_nonneg hA (mul_self_nonneg y)]
      · nlinarith [sq_nonneg (x * sumSq ys - y * dot xs ys),
          mul_nonneg (mul_self_nonneg y) (sub_nonneg.mpr h),
          mul_nonneg hBpos.le (sub_nonneg.mpr h), hBpos]

/-- The scoring division is undefined (NaN) when either norm is zero. -/
theorem cos_sim_none_of_zero {v1 v2 : List ℝ} (h : sumSq v1 = 0 ∨ sumSq v2 = 0) :
    cos_sim v1 v2 = none := by
  rcases h with h | h <;> simp [cos_sim, h]

/-- Counterexample to C2 as stated: the score of the all-zero vector against
a nonzero one is not a defined sentinel value; the division `0 / 0` yields
NaN (modeled `none`) because the source divides without guarding a zero
denominator. -/
theorem cos_sim_zero_vector_nan : cos_sim [(0 : ℝ)] [(1 : ℝ)] = none :=
  cos_sim_none_of_zero (Or.inl (by norm_num [sumSq]))

/-- C2 (amended): if either diagnostic vector is all-zero (zero sum of
squares) the computed score is undefined (NaN, modeled `none`), not a
sentinel; for every pair with nonzero norms the score is defined and lies in
the interval from -1 to 1. -/
theorem cos_sim_contract (v1 v2 : List ℝ) :
    (sumSq v1 = 0 ∨ sumSq v2 = 0 → cos_sim v1 v2 = none) ∧
    (sumSq v1 ≠ 0 → sumSq v2 ≠ 0 →
      ∃ s, cos_sim v1 v2 = some s ∧ -1 ≤ s ∧ s ≤ 1) := by
  refine ⟨cos_sim_none_of_zero, fun h1 h2 => ?_⟩
  have hA : (0 : ℝ) < sumSq v1 := lt_of_le_of_ne (sumSq_nonneg v1) (Ne.symm h1)
  have hB : (0 : ℝ) < sumSq v2 := lt_of_le_of_ne (sumSq_nonneg v2) (Ne.symm h2)
  have hn : (0 : ℝ) < Real.sqrt (sumSq v1) * Real.sqrt (sumSq v2) :=
    mul_pos (Real.sqrt_pos.mpr hA) (Real.sqrt_pos.mpr hB)
  have hcs : dot v1 v2 ^ 2 ≤ sumSq v1 * sumSq v2 := dot_sq_le_sumSq_mul v1 v2
  have habs : |dot v1 v2| ≤ Real.sqrt (sumSq v1) * Real.sqrt (sumSq v2) := by
    calc |dot v1 v2| = Real.sqrt (dot v1 v2 ^ 2) := (Real.sqrt_sq_eq_abs _).symm
      _ ≤ Real.sqrt (sumSq v1 * sumSq v2) := Real.sqrt_le_sqrt hcs
      _ = Real.sqrt (sumSq v1) * Real.sqrt (sumSq v2) := Real.sqrt_mul hA.le _
  have hq : |dot v1 v2 / (Real.sqrt (sumSq v1) * Real.sqrt (sumSq v2))| ≤ 1 := by
    rw [abs_div, abs_of_pos hn]
    exact (div_le_one hn).mpr habs
  refine ⟨_, ?_, (abs_le.mp hq).1, (abs_le.mp hq).2⟩
  unfold cos_sim
  rw [if_neg (ne_of_gt hn)]

/-- Witness for C2 (amended): the zero vector gives an undefined score, and
the concrete nondegenerate pair gives a defined score within bounds. -/
theorem cos_sim_contract_witness :
    cos_sim [(0 : ℝ)] [(1 : ℝ)] = none ∧
    ∃ s, cos_sim [(1 : ℝ)] [(1 : ℝ)] = some s ∧ -1 ≤ s ∧ s ≤ 1 :=
  ⟨(cos_sim_contract [(0 : ℝ)] [(1 : ℝ)]).1 (Or.inl (by norm_num [sumSq])),
   (cos_sim_contract [(1 : ℝ)] [(1 : ℝ)]).2 (by norm_num [sumSq]) (by norm_num [sumSq])⟩

/-- C7: the per-gene score table stored in the result container of
`map_cells_to_space` is sorted in descending score order (undefined scores
last, as pandas places NaN) and is a permutation of the raw per-gene
(gene, cosine similarity) pairs computed from predicted and observed spatial
expression. -/
theorem trainGenesScores_sorted_ranked (M S G : DenseM) (genes : List String) :
    List.Sorted scoreGE (trainGenesScores M S G genes) ∧
    (trainGenesScores M S G genes).Perm (rawGeneScores M S G genes) :=
  ⟨List.sorted_insertionSort scoreGE (rawGeneScores M S G genes),
   List.perm_insertionSort scoreGE (rawGeneScores M S G genes)⟩

end Tangram
